import Mathlib

/-!
Verification development for the client-side transport layer of the
`tonic` RPC framework fork (files `src/tonic/src/transport/error.rs`,
`src/tonic/src/transport/channel/service/connection.rs`,
`src/tonic/src/transport/channel/service/mod.rs`,
`src/tonic-types/src/richer_error/std_messages/quota_failure.rs`).

The Rust code is shallowly embedded: pure constructors become Lean
functions, asynchronous readiness-driven state becomes explicit state
passing over a connect-outcome environment, and fallible operations
return `Except`.  Machine integers that matter ( `i64` protobuf values )
are embedded as `Int`.
-/

namespace Tonic

/-! ## Error taxonomy — `src/tonic/src/transport/error.rs`

`type Source = Box<dyn StdError + Send + Sync + 'static>`: an opaque
boxed error value.  We model it by its caller-observable surface: its
`Display` text. -/

/-- An opaque boxed underlying cause (`Box<dyn StdError>`), observable
through its `Display` text. -/
structure Source where
  display : String
deriving DecidableEq, Repr

/-- `enum Kind` from error.rs, with every feature enabled (the variants
`InvalidUri`, `InvalidUserAgent`, `InvalidTlsConfigForUds` are
feature-gated in the source; a full build has all four). -/
inductive Kind where
  | Transport
  | InvalidUri
  | InvalidUserAgent
  | InvalidTlsConfigForUds
deriving DecidableEq, Repr

/-- `struct ErrorImpl { kind, source }` from error.rs. -/
structure ErrorImpl where
  kind : Kind
  source : Option Source
deriving DecidableEq, Repr

/-- `pub struct Error { inner: ErrorImpl }` from error.rs. -/
structure Error where
  inner : ErrorImpl
deriving DecidableEq, Repr

/-- `Error::new(kind)`: kind with no source. -/
def Error.new (kind : Kind) : Error :=
  { inner := { kind := kind, source := none } }

/-- `Error::with(self, source)` (named `withSource` because `with` is a
Lean keyword): replaces the source with `Some source`. -/
def Error.withSource (e : Error) (source : Source) : Error :=
  { inner := { kind := e.inner.kind, source := some source } }

/-- `Error::from_source(source)` = `Error::new(Kind::Transport).with(source)`. -/
def Error.from_source (source : Source) : Error :=
  (Error.new Kind.Transport).withSource source

/-- `Error::new_invalid_uri()`. -/
def Error.new_invalid_uri : Error :=
  Error.new Kind.InvalidUri

/-- `Error::new_invalid_user_agent()`. -/
def Error.new_invalid_user_agent : Error :=
  Error.new Kind.InvalidUserAgent

/-- The fixed description text per kind, from the `match` in
`Error::description` (a function of `self.inner.kind` only). -/
def Kind.description : Kind → String
  | Kind.Transport => "transport error"
  | Kind.InvalidUri => "invalid URI"
  | Kind.InvalidUserAgent => "user agent is not a valid header value"
  | Kind.InvalidTlsConfigForUds => "cannot apply TLS config for unix domain socket"

/-- `Error::description(&self)`. -/
def Error.description (e : Error) : String :=
  e.inner.kind.description

/-- `impl fmt::Display for Error`: writes exactly the description. -/
def Error.displayText (e : Error) : String :=
  e.description

/-- `impl StdError for Error`: `source()` returns the optional chained
cause. -/
def Error.sourceIntrospect (e : Error) : Option Source :=
  e.inner.source

/-! ## Endpoint configuration and HTTP/2 builder settings

`Endpoint` fields used by `Connection::new` (connection.rs lines 38–79).
Time durations and window sizes are embedded as `Nat`. -/

/-- The fields of `Endpoint` read by `Connection::new`. -/
structure Endpoint where
  uri : String
  origin : Option String
  user_agent : Option String
  timeout : Option Nat
  concurrency_limit : Option Nat
  rate_limit : Option (Nat × Nat)
  init_stream_window_size : Option Nat
  init_connection_window_size : Option Nat
  http2_keep_alive_interval : Option Nat
  http2_keep_alive_timeout : Option Nat
  http2_keep_alive_while_idle : Option Bool
  http2_adaptive_window : Option Bool
  http2_max_header_list_size : Option Nat
deriving Repr

/-- The hyper HTTP/2 client `Builder` settings populated by
`Connection::new` (connection.rs lines 38–59). -/
structure Http2Settings where
  initial_stream_window_size : Option Nat
  initial_connection_window_size : Option Nat
  keep_alive_interval : Option Nat
  keep_alive_timeout : Option Nat
  keep_alive_while_idle : Option Bool
  adaptive_window : Option Bool
  max_header_list_size : Option Nat
deriving Repr

/-- The settings construction of `Connection::new`: unconditional fields
first, then each `if let Some(val)` assignment. -/
def buildSettings (endpoint : Endpoint) : Http2Settings :=
  let s : Http2Settings :=
    { initial_stream_window_size := endpoint.init_stream_window_size
      initial_connection_window_size := endpoint.init_connection_window_size
      keep_alive_interval := endpoint.http2_keep_alive_interval
      keep_alive_timeout := none
      keep_alive_while_idle := none
      adaptive_window := none
      max_header_list_size := none }
  let s := match endpoint.http2_keep_alive_timeout with
    | some val => { s with keep_alive_timeout := some val }
    | none => s
  let s := match endpoint.http2_keep_alive_while_idle with
    | some val => { s with keep_alive_while_idle := some val }
    | none => s
  let s := match endpoint.http2_adaptive_window with
    | some val => { s with adaptive_window := some val }
    | none => s
  match endpoint.http2_max_header_list_size with
    | some val => { s with max_header_list_size := some val }
    | none => s

/-! ## The layered service stack — `Connection::new`

Each tower layer wraps exactly one inner service (a decorator chain);
the service value is embedded as a tree that records, per wrapper, the
configuration it captured.  The `Reconnect` engine is the innermost
service.  Modelled from the spec: `reconnect.rs` is not under `src/`
(only declared by `mod.rs`); per the spec (§3, §4.5) its state is one of
Idle / Connecting / Connected / Failed, transitions driven only by
readiness checks, and `Reconnect::new` stores the factory and lazy flag
without attempting a connection (state starts not-yet-attempted).  The
in-flight `Connecting` state is collapsed here because readiness checks
are modelled as one awaited step. -/

/-- Reconnect-engine state, modelled from the spec (§3): Idle (not yet
attempted), Connected, Failed(last error); Connecting is collapsed into
the awaited readiness step. -/
inductive ReconnectState where
  | idle
  | connected
  | failed (e : Source)
deriving DecidableEq, Repr

/-- The composed service value built by `Connection::new`: a decorator
chain whose nodes are the tower layers from connection.rs lines 61–82,
innermost the `Reconnect` engine. -/
inductive Svc where
  | reconnect (target : String) (is_lazy : Bool) (state : ReconnectState)
  | addOrigin (inner : Svc) (origin : String)
  | userAgent (inner : Svc) (user_agent : Option String)
  | grpcTimeout (inner : Svc) (timeout : Option Nat)
  | concurrencyLimit (inner : Svc) (limit : Nat)
  | rateLimit (inner : Svc) (num : Nat) (per : Nat)
deriving DecidableEq, Repr

/-- The kind tag of one policy wrapper. -/
inductive LayerKind where
  | addOrigin
  | userAgent
  | grpcTimeout
  | concurrencyLimit
  | rateLimit
deriving DecidableEq, Repr

/-- `Reconnect::new(make_service, target, is_lazy)`.  Modelled from the
spec: stores the target and lazy flag; initial state is not-yet-attempted
(Idle) — no connect attempt happens at construction. -/
def Reconnect.new (target : String) (is_lazy : Bool) : Svc :=
  Svc.reconnect target is_lazy ReconnectState.idle

/-- `Connection { inner: BoxService<...> }`. -/
structure Connection where
  inner : Svc
deriving Repr

/-- `Connection::new(connector, endpoint, is_lazy)` (connection.rs lines
31–84): builds the tower `ServiceBuilder` stack.  `ServiceBuilder`
applies the first layer added as the outermost wrapper, so the chain is
`AddOrigin (UserAgent (GrpcTimeout (ConcurrencyLimit? (RateLimit?
Reconnect))))`; `option_layer` inserts the layer only when the option is
`Some`.  The `user-agent` cargo feature is passed as the
`userAgentFeature` flag. -/
def Connection.new (userAgentFeature : Bool) (endpoint : Endpoint)
    (is_lazy : Bool) : Connection :=
  let conn := Reconnect.new endpoint.uri is_lazy
  let svc := match endpoint.rate_limit with
    | some (l, d) => Svc.rateLimit conn l d
    | none => conn
  let svc := match endpoint.concurrency_limit with
    | some l => Svc.concurrencyLimit svc l
    | none => svc
  let svc := Svc.grpcTimeout svc endpoint.timeout
  let svc := if userAgentFeature then Svc.userAgent svc endpoint.user_agent else svc
  let svc := Svc.addOrigin svc ((endpoint.origin).getD endpoint.uri)
  { inner := svc }

/-- The wrapper kinds of a stack, outermost first, down to the
`Reconnect` core. -/
def Svc.wrapperTrace : Svc → List LayerKind
  | Svc.reconnect _ _ _ => []
  | Svc.addOrigin inner _ => LayerKind.addOrigin :: inner.wrapperTrace
  | Svc.userAgent inner _ => LayerKind.userAgent :: inner.wrapperTrace
  | Svc.grpcTimeout inner _ => LayerKind.grpcTimeout :: inner.wrapperTrace
  | Svc.concurrencyLimit inner _ => LayerKind.concurrencyLimit :: inner.wrapperTrace
  | Svc.rateLimit inner _ _ => LayerKind.rateLimit :: inner.wrapperTrace

/-- The innermost service of the chain. -/
def Svc.core : Svc → Svc
  | Svc.reconnect t lz st => Svc.reconnect t lz st
  | Svc.addOrigin inner _ => inner.core
  | Svc.userAgent inner _ => inner.core
  | Svc.grpcTimeout inner _ => inner.core
  | Svc.concurrencyLimit inner _ => inner.core
  | Svc.rateLimit inner _ _ => inner.core

/-- The caller-observable attributes of one outgoing request touched by
the policy wrappers. -/
structure Req where
  origin : Option String
  userAgentHeader : Option String
deriving DecidableEq, Repr

/-- One `call` descending the decorator chain: each wrapper appends
itself to the traversal trace and forwards the (possibly updated)
request to its inner service; the `Reconnect` core receives the final
request.  Modelled from the spec (§4.6) for the wrapper bodies that are
not under `src/` (`add_origin.rs`, `user_agent.rs`): origin injection
sets the origin attribute, user-agent tagging sets the header when
configured; timeout and the limiters forward the request unchanged. -/
def Svc.callSeq : Svc → Req → List LayerKind × Req
  | Svc.reconnect _ _ _, req => ([], req)
  | Svc.addOrigin inner origin, req =>
      let (tr, req') := inner.callSeq { req with origin := some origin }
      (LayerKind.addOrigin :: tr, req')
  | Svc.userAgent inner ua, req =>
      let (tr, req') := inner.callSeq
        (match ua with
          | some v => { req with userAgentHeader := some v }
          | none => req)
      (LayerKind.userAgent :: tr, req')
  | Svc.grpcTimeout inner _, req =>
      let (tr, req') := inner.callSeq req
      (LayerKind.grpcTimeout :: tr, req')
  | Svc.concurrencyLimit inner _, req =>
      let (tr, req') := inner.callSeq req
      (LayerKind.concurrencyLimit :: tr, req')
  | Svc.rateLimit inner _ _, req =>
      let (tr, req') := inner.callSeq req
      (LayerKind.rateLimit :: tr, req')

/-! ## Readiness — `ready_oneshot`, `Connection::connect`, `Connection::lazy`

The connect-attempt environment assigns to each attempt index the
outcome of that attempt (connector + handshake); the attempt counter is
threaded through readiness.  Modelled from the spec (§4.5, §4.7):
readiness on an Idle engine begins a connect attempt; wrappers delegate
the first readiness check unchanged (origin/user-agent do not alter
readiness, a fresh concurrency limiter has a free slot, a fresh rate
limiter has a full budget). -/

/-- The outcome stream of successive connect attempts: attempt `n`
(0-based) resolves to `ok` or to a failure cause. -/
abbrev ConnEnv : Type := Nat → Except Source Unit

/-- One awaited readiness check (`ready_oneshot`) on the stack, given
the environment and the number of attempts already made.  Returns the
(updated) service or the readiness error, with the new attempt count. -/
def Svc.readyOneshot (env : ConnEnv) : Svc → Nat → (Except Source Svc) × Nat
  | Svc.reconnect t lz st, n =>
      match st with
      | ReconnectState.connected => (Except.ok (Svc.reconnect t lz ReconnectState.connected), n)
      | _ =>
          match env n with
          | Except.ok _ => (Except.ok (Svc.reconnect t lz ReconnectState.connected), n + 1)
          | Except.error e => (Except.error e, n + 1)
  | Svc.addOrigin inner o, n =>
      let (r, n') := inner.readyOneshot env n
      (r.map (fun i => Svc.addOrigin i o), n')
  | Svc.userAgent inner ua, n =>
      let (r, n') := inner.readyOneshot env n
      (r.map (fun i => Svc.userAgent i ua), n')
  | Svc.grpcTimeout inner t, n =>
      let (r, n') := inner.readyOneshot env n
      (r.map (fun i => Svc.grpcTimeout i t), n')
  | Svc.concurrencyLimit inner l, n =>
      let (r, n') := inner.readyOneshot env n
      (r.map (fun i => Svc.concurrencyLimit i l), n')
  | Svc.rateLimit inner l d, n =>
      let (r, n') := inner.readyOneshot env n
      (r.map (fun i => Svc.rateLimit i l d), n')

/-- `Connection::connect(connector, endpoint)` =
`Self::new(connector, endpoint, false).ready_oneshot().await`
(connection.rs lines 86–97): returns the connection only once the
first readiness check of the freshly built stack succeeded, the error
otherwise, together with the number of connect attempts performed. -/
def Connection.connect (userAgentFeature : Bool) (endpoint : Endpoint)
    (env : ConnEnv) : (Except Source Connection) × Nat :=
  match (Connection.new userAgentFeature endpoint false).inner.readyOneshot env 0 with
  | (Except.ok s, n) => (Except.ok { inner := s }, n)
  | (Except.error e, n) => (Except.error e, n)

/-- `Connection::lazy(connector, endpoint)` =
`Self::new(connector, endpoint, true)` (connection.rs lines 99–107): a
pure constructor — it takes no connect-outcome environment at all, so
construction can perform no connect attempt. -/
def Connection.lazy (userAgentFeature : Bool) (endpoint : Endpoint) : Connection :=
  Connection.new userAgentFeature endpoint true

/-- `impl Load for Connection`: `load()` returns `0`. -/
def Connection.load (_ : Connection) : Nat :=
  0

/-- `Formatter::debug_struct(name).finish()`: with no fields recorded
the output is exactly the name, otherwise the name followed by the
brace-enclosed fields. -/
def debugStructFinish (name : String) (fields : List (String × String)) : String :=
  if fields.isEmpty then name
  else
    name ++ " \x7b " ++
      String.intercalate ", " (fields.map (fun f => f.1 ++ ": " ++ f.2)) ++ " \x7d"

/-- `impl fmt::Debug for Connection`:
`f.debug_struct("Connection").finish()` — no field is recorded. -/
def Connection.debugFmt (_ : Connection) : String :=
  debugStructFinish "Connection" []

/-! ## `MakeSendRequestService::call` — connection.rs lines 195–215

The async block awaits the connector future, performs the HTTP/2
handshake over the obtained stream, spawns the driver (`conn`) task on
the executor, and returns the `SendRequest` dispatcher handle.  The
duplex stream, the dispatcher handle and the driver's eventual
termination outcome are embedded by their observable identities. -/

/-- A duplex byte stream produced by the connector. -/
structure DuplexStream where
  id : Nat
deriving DecidableEq, Repr

/-- The `SendRequest` dispatcher handle produced by the handshake
(`struct SendRequest` wrapping hyper's HTTP/2 send-request handle). -/
structure SendRequest where
  id : Nat
deriving DecidableEq, Repr

/-- The eventual termination outcome of one driver (`conn`) task:
the connection closed cleanly or errored. -/
abbrev DriverOutcome : Type := Except Source Unit

/-- Running the task spawned for the driver (connection.rs lines
204–211): awaits the driver outcome; an error is logged at debug level
and nothing else happens — the task returns unit, so no error can
propagate out of it.  Result: the task's unit value and the log lines it
emitted. -/
def connTaskRun (outcome : DriverOutcome) : Unit × List String :=
  match outcome with
  | Except.ok _ => ((), [])
  | Except.error e => ((), ["connection task error: " ++ e.display])

/-- `MakeSendRequestService::call` as a function of the connector
outcome and the handshake outcome per stream: returns the call's result
together with the list of driver tasks handed to the executor.
`fut.await.map_err(Into::into)?` propagates a connector failure;
`builder.handshake(io).await?` propagates a handshake failure; on
success the driver outcome is spawned and `Ok(SendRequest)` returned. -/
def makeSendRequestCall (connectorOutcome : Except Source DuplexStream)
    (handshake : DuplexStream → Except Source (SendRequest × DriverOutcome)) :
    (Except Source SendRequest) × List DriverOutcome :=
  match connectorOutcome with
  | Except.error e => (Except.error e, [])
  | Except.ok io =>
      match handshake io with
      | Except.error e => (Except.error e, [])
      | Except.ok (send_request, conn) => (Except.ok send_request, [conn])

end Tonic

namespace TonicTypes

/-! ## `QuotaFailure` — tonic-types quota_failure.rs

The prost-generated protobuf types `pb::QuotaFailure` and
`pb::quota_failure::Violation` are embedded as structures with the
fields the conversions in quota_failure.rs read and write; the
`HashMap<String, String>` of quota dimensions is embedded as an
association list. -/

namespace Pb

/-- `pb::quota_failure::Violation` (prost-generated). -/
structure Violation where
  subject : String
  description : String
  api_service : String
  quota_metric : String
  quota_id : String
  quota_dimensions : List (String × String)
  quota_value : Int
  future_quota_value : Option Int
deriving DecidableEq, Repr

/-- `pb::QuotaFailure` (prost-generated). -/
structure QuotaFailure where
  violations : List Violation
deriving DecidableEq, Repr

end Pb

/-- `QuotaViolation` from quota_failure.rs: note the crate-side field
`futura_quota_value`, corresponding to protobuf `future_quota_value`. -/
structure QuotaViolation where
  subject : String
  description : String
  api_service : String
  quota_metric : String
  quota_id : String
  quota_dimensions : List (String × String)
  quota_value : Int
  futura_quota_value : Option Int
deriving DecidableEq, Repr

/-- `QuotaFailure` from quota_failure.rs. -/
structure QuotaFailure where
  violations : List QuotaViolation
deriving DecidableEq, Repr

/-- `impl From<pb::quota_failure::Violation> for QuotaViolation`
(quota_failure.rs lines 51–64). -/
def QuotaViolation.fromPb (value : Pb.Violation) : QuotaViolation :=
  { subject := value.subject
    description := value.description
    api_service := value.api_service
    quota_metric := value.quota_metric
    quota_id := value.quota_id
    quota_dimensions := value.quota_dimensions
    quota_value := value.quota_value
    futura_quota_value := value.future_quota_value }

/-- `impl From<QuotaViolation> for pb::quota_failure::Violation`
(quota_failure.rs lines 66–79). -/
def QuotaViolation.toPb (value : QuotaViolation) : Pb.Violation :=
  { subject := value.subject
    description := value.description
    api_service := value.api_service
    quota_metric := value.quota_metric
    quota_id := value.quota_id
    quota_dimensions := value.quota_dimensions
    quota_value := value.quota_value
    future_quota_value := value.futura_quota_value }

/-- `impl From<pb::QuotaFailure> for QuotaFailure`
(quota_failure.rs lines 162–168). -/
def QuotaFailure.fromPb (value : Pb.QuotaFailure) : QuotaFailure :=
  { violations := value.violations.map QuotaViolation.fromPb }

/-- `impl From<QuotaFailure> for pb::QuotaFailure`
(quota_failure.rs lines 170–176). -/
def QuotaFailure.toPb (value : QuotaFailure) : Pb.QuotaFailure :=
  { violations := value.violations.map QuotaViolation.toPb }

/-- `QuotaFailure::TYPE_URL`. -/
def QuotaFailure.TYPE_URL : String :=
  "type.googleapis.com/google.rpc.QuotaFailure"

/-! ### The message byte codec

Modelled from the spec: the prost `Message::encode_to_vec` /
`Message::decode` pair for the generated pb types is not part of the
core ("wire-level message framing/serialization … consumed as an opaque
encode/decode boundary", spec §1); it is modelled as an executable
varint-based self-describing byte serializer and its parser, satisfying
the boundary's decode-after-encode contract. -/

/-- Base-128 varint encoding of a natural number (little-endian groups,
continuation bit 0x80). -/
def varintEncode (n : Nat) : List Nat :=
  if h : n < 128 then [n]
  else (n % 128 + 128) :: varintEncode (n / 128)
decreasing_by
  exact Nat.div_lt_self (by omega) (by omega)

/-- Base-128 varint parser; returns the value and the remaining bytes. -/
def varintDecode : List Nat → Option (Nat × List Nat)
  | [] => none
  | b :: rest =>
      if b < 128 then some (b, rest)
      else
        match varintDecode rest with
        | some (n, r) => some (n * 128 + (b - 128), r)
        | none => none

/-- Zigzag mapping of a signed 64-bit protobuf value into a natural. -/
def zigzag (i : Int) : Nat :=
  if 0 ≤ i then 2 * i.toNat else 2 * (-i).toNat - 1

/-- Inverse of the zigzag mapping. -/
def unzigzag (n : Nat) : Int :=
  if n % 2 = 0 then ((n / 2 : Nat) : Int) else -(((n + 1) / 2 : Nat) : Int)

/-- A string as a length-prefixed run of character-codepoint varints. -/
def encodeString (s : String) : List Nat :=
  varintEncode s.length ++ (s.data.map (fun c => varintEncode c.toNat)).flatten

/-- Parse `k` length-or-item units with the item parser `g`. -/
def decodeCount (g : List Nat → Option (α × List Nat)) :
    Nat → List Nat → Option (List α × List Nat)
  | 0, bytes => some ([], bytes)
  | k + 1, bytes =>
      match g bytes with
      | none => none
      | some (x, rest) =>
          match decodeCount g k rest with
          | none => none
          | some (xs, r) => some (x :: xs, r)

/-- Parse one character codepoint. -/
def decodeChar (bytes : List Nat) : Option (Char × List Nat) :=
  match varintDecode bytes with
  | some (n, rest) => some (Char.ofNat n, rest)
  | none => none

/-- Parse a length-prefixed string. -/
def decodeString (bytes : List Nat) : Option (String × List Nat) :=
  match varintDecode bytes with
  | none => none
  | some (k, rest) =>
      match decodeCount decodeChar k rest with
      | none => none
      | some (cs, r) => some (String.mk cs, r)

/-- A list as a length-prefixed run of item encodings. -/
def encodeListWith (f : α → List Nat) (l : List α) : List Nat :=
  varintEncode l.length ++ (l.map f).flatten

/-- Parse a length-prefixed list. -/
def decodeListWith (g : List Nat → Option (α × List Nat))
    (bytes : List Nat) : Option (List α × List Nat) :=
  match varintDecode bytes with
  | none => none
  | some (k, rest) => decodeCount g k rest

/-- One quota-dimension entry: key then value. -/
def encodePair (p : String × String) : List Nat :=
  encodeString p.1 ++ encodeString p.2

/-- Parse one quota-dimension entry. -/
def decodePair (bytes : List Nat) : Option ((String × String) × List Nat) :=
  match decodeString bytes with
  | none => none
  | some (a, rest) =>
      match decodeString rest with
      | none => none
      | some (b, r) => some ((a, b), r)

/-- A signed value as its zigzag varint. -/
def encodeInt (i : Int) : List Nat :=
  varintEncode (zigzag i)

/-- Parse a signed value. -/
def decodeInt (bytes : List Nat) : Option (Int × List Nat) :=
  match varintDecode bytes with
  | some (n, rest) => some (unzigzag n, rest)
  | none => none

/-- An optional signed value as a presence tag and, when present, the
value. -/
def encodeOptInt : Option Int → List Nat
  | none => [0]
  | some i => 1 :: encodeInt i

/-- Parse an optional signed value. -/
def decodeOptInt (bytes : List Nat) : Option (Option Int × List Nat) :=
  match bytes with
  | 0 :: rest => some (none, rest)
  | 1 :: rest =>
      match decodeInt rest with
      | some (i, r) => some (some i, r)
      | none => none
  | _ => none

/-- Serialize one `pb::quota_failure::Violation`, field by field in
declaration order. -/
def Pb.Violation.encode (v : Pb.Violation) : List Nat :=
  encodeString v.subject ++ encodeString v.description ++
    encodeString v.api_service ++ encodeString v.quota_metric ++
    encodeString v.quota_id ++ encodeListWith encodePair v.quota_dimensions ++
    encodeInt v.quota_value ++ encodeOptInt v.future_quota_value

/-- Parse one `pb::quota_failure::Violation`. -/
def Pb.Violation.decodeOne (bytes : List Nat) : Option (Pb.Violation × List Nat) := do
  let (subject, r1) ← decodeString bytes
  let (description, r2) ← decodeString r1
  let (api_service, r3) ← decodeString r2
  let (quota_metric, r4) ← decodeString r3
  let (quota_id, r5) ← decodeString r4
  let (quota_dimensions, r6) ← decodeListWith decodePair r5
  let (quota_value, r7) ← decodeInt r6
  let (future_quota_value, r8) ← decodeOptInt r7
  pure ({ subject := subject
          description := description
          api_service := api_service
          quota_metric := quota_metric
          quota_id := quota_id
          quota_dimensions := quota_dimensions
          quota_value := quota_value
          future_quota_value := future_quota_value }, r8)

/-- `pb::QuotaFailure::encode_to_vec`: the serialized violation list. -/
def Pb.QuotaFailure.encode_to_vec (m : Pb.QuotaFailure) : List Nat :=
  encodeListWith Pb.Violation.encode m.violations

/-- A prost decode failure, observable through its message. -/
structure DecodeError where
  message : String
deriving DecidableEq, Repr

/-- `pb::QuotaFailure::decode(buf)`: parses the whole buffer; trailing
or malformed bytes are a decode error. -/
def Pb.QuotaFailure.decode (bytes : List Nat) : Except DecodeError Pb.QuotaFailure :=
  match decodeListWith Pb.Violation.decodeOne bytes with
  | some (violations, []) => Except.ok { violations := violations }
  | _ => Except.error { message := "failed to decode Protobuf message" }

/-- `prost_types::Any`: a self-describing blob. -/
structure Any where
  type_url : String
  value : List Nat
deriving DecidableEq, Repr

/-- `impl IntoAny for QuotaFailure` (quota_failure.rs lines 135–144):
convert to the pb type, serialize, and tag with `TYPE_URL`. -/
def QuotaFailure.into_any (self : QuotaFailure) : Any :=
  let detail_data : Pb.QuotaFailure := self.toPb
  { type_url := QuotaFailure.TYPE_URL
    value := detail_data.encode_to_vec }

/-- `impl FromAnyRef for QuotaFailure` (quota_failure.rs lines 153–160):
decode the blob's bytes as `pb::QuotaFailure` and convert. -/
def QuotaFailure.from_any_ref (any : Any) : Except DecodeError QuotaFailure :=
  match Pb.QuotaFailure.decode any.value with
  | Except.ok quota_failure => Except.ok (QuotaFailure.fromPb quota_failure)
  | Except.error e => Except.error e

/-- `impl FromAny for QuotaFailure` (quota_failure.rs lines 146–151):
delegates to `from_any_ref`. -/
def QuotaFailure.from_any (any : Any) : Except DecodeError QuotaFailure :=
  QuotaFailure.from_any_ref any

/-! ### Codec round-trip lemmas -/

theorem char_ofNat_toNat (c : Char) : Char.ofNat c.toNat = c := by
  apply Char.eq_of_val_eq
  unfold Char.ofNat
  rw [dif_pos (show c.toNat.isValidChar from c.valid)]
  apply UInt32.eq_of_toBitVec_eq
  apply BitVec.eq_of_toNat_eq
  simp [Char.ofNatAux, Char.toNat, UInt32.toNat]

theorem varintDecode_varintEncode (n : Nat) :
    ∀ rest, varintDecode (varintEncode n ++ rest) = some (n, rest) := by
  induction n using Nat.strong_induction_on with
  | _ n ih =>
    intro rest
    rw [varintEncode]
    split
    · simp [varintDecode, *]
    · rename_i h
      simp only [List.cons_append, varintDecode, List.append_eq]
      rw [if_neg (by omega)]
      rw [ih (n / 128) (Nat.div_lt_self (by omega) (by omega)) rest]
      simp
      omega

theorem unzigzag_zigzag (i : Int) : unzigzag (zigzag i) = i := by
  unfold zigzag unzigzag
  by_cases h : 0 ≤ i
  · rw [if_pos h]
    have h2 : 2 * i.toNat % 2 = 0 := by omega
    rw [if_pos h2]
    omega
  · rw [if_neg h]
    have h1 : 1 ≤ (-i).toNat := by omega
    have h2 : ¬ (2 * (-i).toNat - 1) % 2 = 0 := by omega
    rw [if_neg h2]
    omega

theorem decodeInt_encodeInt (i : Int) (rest : List Nat) :
    decodeInt (encodeInt i ++ rest) = some (i, rest) := by
  unfold encodeInt decodeInt
  rw [varintDecode_varintEncode]
  simp [unzigzag_zigzag]

theorem decodeOptInt_encodeOptInt (o : Option Int) (rest : List Nat) :
    decodeOptInt (encodeOptInt o ++ rest) = some (o, rest) := by
  cases o with
  | none => simp [encodeOptInt, decodeOptInt]
  | some i => simp [encodeOptInt, decodeOptInt, decodeInt_encodeInt]

theorem decodeChar_encodeChar (c : Char) (rest : List Nat) :
    decodeChar (varintEncode c.toNat ++ rest) = some (c, rest) := by
  unfold decodeChar
  rw [varintDecode_varintEncode]
  simp [char_ofNat_toNat]

theorem decodeCount_encoded {α : Type} (f : α → List Nat)
    (g : List Nat → Option (α × List Nat))
    (hfg : ∀ x rest, g (f x ++ rest) = some (x, rest)) :
    ∀ (l : List α) (rest : List Nat),
      decodeCount g l.length ((l.map f).flatten ++ rest) = some (l, rest) := by
  intro l
  induction l with
  | nil => intro rest; simp [decodeCount]
  | cons x xs ih =>
      intro rest
      simp only [List.map_cons, List.flatten_cons, List.length_cons,
        List.append_assoc]
      rw [decodeCount, hfg]
      simp [ih]

theorem decodeListWith_encodeListWith {α : Type} (f : α → List Nat)
    (g : List Nat → Option (α × List Nat))
    (hfg : ∀ x rest, g (f x ++ rest) = some (x, rest))
    (l : List α) (rest : List Nat) :
    decodeListWith g (encodeListWith f l ++ rest) = some (l, rest) := by
  unfold encodeListWith decodeListWith
  rw [List.append_assoc, varintDecode_varintEncode]
  exact decodeCount_encoded f g hfg l rest

theorem decodeString_encodeString (s : String) (rest : List Nat) :
    decodeString (encodeString s ++ rest) = some (s, rest) := by
  unfold encodeString decodeString
  rw [List.append_assoc, varintDecode_varintEncode]
  have hlen : s.length = s.data.length := rfl
  simp only [hlen, decodeCount_encoded (fun c => varintEncode c.toNat) decodeChar
    (fun c rest => decodeChar_encodeChar c rest) s.data]

theorem decodePair_encodePair (p : String × String) (rest : List Nat) :
    decodePair (encodePair p ++ rest) = some (p, rest) := by
  unfold encodePair decodePair
  simp only [List.append_assoc, decodeString_encodeString]

theorem violation_decodeOne_encode (v : Pb.Violation) (rest : List Nat) :
    Pb.Violation.decodeOne (Pb.Violation.encode v ++ rest) = some (v, rest) := by
  unfold Pb.Violation.encode Pb.Violation.decodeOne
  simp only [List.append_assoc, decodeString_encodeString,
    decodeListWith_encodeListWith encodePair decodePair decodePair_encodePair,
    decodeInt_encodeInt, decodeOptInt_encodeOptInt,
    Option.bind_eq_bind, Option.some_bind, Option.pure_def]

theorem quotaFailure_decode_encode (m : Pb.QuotaFailure) :
    Pb.QuotaFailure.decode m.encode_to_vec = Except.ok m := by
  unfold Pb.QuotaFailure.encode_to_vec Pb.QuotaFailure.decode
  have h := decodeListWith_encodeListWith Pb.Violation.encode Pb.Violation.decodeOne
    (fun v rest => violation_decodeOne_encode v rest) m.violations []
  rw [List.append_nil] at h
  rw [h]

theorem quotaViolation_fromPb_toPb (v : QuotaViolation) :
    QuotaViolation.fromPb v.toPb = v :=
  rfl

theorem quotaFailure_fromPb_toPb (qf : QuotaFailure) :
    QuotaFailure.fromPb qf.toPb = qf := by
  unfold QuotaFailure.fromPb QuotaFailure.toPb
  simp [List.map_map, Function.comp_def, quotaViolation_fromPb_toPb]

end TonicTypes

namespace Tonic

/-! ### Stack-shape and readiness lemmas -/

theorem new_core (ua : Bool) (ep : Endpoint) (lz : Bool) :
    (Connection.new ua ep lz).inner.core =
      Svc.reconnect ep.uri lz ReconnectState.idle := by
  cases hc : ep.concurrency_limit <;> cases hr : ep.rate_limit <;> cases ua <;>
    simp [Connection.new, Reconnect.new, Svc.core, hc, hr]

theorem readyOneshot_error (env : ConnEnv) (e : Source) :
    ∀ (s : Svc) (t : String) (lz : Bool) (n : Nat),
      s.core = Svc.reconnect t lz ReconnectState.idle →
      env n = Except.error e →
      s.readyOneshot env n = (Except.error e, n + 1) := by
  intro s
  induction s with
  | reconnect t' lz' st =>
      intro t lz n hcore henv
      simp only [Svc.core] at hcore
      injection hcore with h1 h2 h3
      subst h3
      simp [Svc.readyOneshot, henv]
  | addOrigin inner o ih =>
      intro t lz n hcore henv
      simp only [Svc.core] at hcore
      simp [Svc.readyOneshot, ih t lz n hcore henv, Except.map]
  | userAgent inner ua ih =>
      intro t lz n hcore henv
      simp only [Svc.core] at hcore
      simp [Svc.readyOneshot, ih t lz n hcore henv, Except.map]
  | grpcTimeout inner tmo ih =>
      intro t lz n hcore henv
      simp only [Svc.core] at hcore
      simp [Svc.readyOneshot, ih t lz n hcore henv, Except.map]
  | concurrencyLimit inner l ih =>
      intro t lz n hcore henv
      simp only [Svc.core] at hcore
      simp [Svc.readyOneshot, ih t lz n hcore henv, Except.map]
  | rateLimit inner l d ih =>
      intro t lz n hcore henv
      simp only [Svc.core] at hcore
      simp [Svc.readyOneshot, ih t lz n hcore henv, Except.map]

theorem readyOneshot_ok (env : ConnEnv) :
    ∀ (s : Svc) (t : String) (lz : Bool) (n : Nat),
      s.core = Svc.reconnect t lz ReconnectState.idle →
      env n = Except.ok () →
      ∃ s', s.readyOneshot env n = (Except.ok s', n + 1) ∧
        s'.core = Svc.reconnect t lz ReconnectState.connected := by
  intro s
  induction s with
  | reconnect t' lz' st =>
      intro t lz n hcore henv
      simp only [Svc.core] at hcore
      injection hcore with h1 h2 h3
      subst h3
      refine ⟨Svc.reconnect t' lz' ReconnectState.connected,
        by simp [Svc.readyOneshot, henv], ?_⟩
      rw [Svc.core, h1, h2]
  | addOrigin inner o ih =>
      intro t lz n hcore henv
      simp only [Svc.core] at hcore
      obtain ⟨s', hs', hcore'⟩ := ih t lz n hcore henv
      exact ⟨Svc.addOrigin s' o, by simp [Svc.readyOneshot, hs', Except.map], by
        simpa [Svc.core] using hcore'⟩
  | userAgent inner ua ih =>
      intro t lz n hcore henv
      simp only [Svc.core] at hcore
      obtain ⟨s', hs', hcore'⟩ := ih t lz n hcore henv
      exact ⟨Svc.userAgent s' ua, by simp [Svc.readyOneshot, hs', Except.map], by
        simpa [Svc.core] using hcore'⟩
  | grpcTimeout inner tmo ih =>
      intro t lz n hcore henv
      simp only [Svc.core] at hcore
      obtain ⟨s', hs', hcore'⟩ := ih t lz n hcore henv
      exact ⟨Svc.grpcTimeout s' tmo, by simp [Svc.readyOneshot, hs', Except.map], by
        simpa [Svc.core] using hcore'⟩
  | concurrencyLimit inner l ih =>
      intro t lz n hcore henv
      simp only [Svc.core] at hcore
      obtain ⟨s', hs', hcore'⟩ := ih t lz n hcore henv
      exact ⟨Svc.concurrencyLimit s' l, by simp [Svc.readyOneshot, hs', Except.map], by
        simpa [Svc.core] using hcore'⟩
  | rateLimit inner l d ih =>
      intro t lz n hcore henv
      simp only [Svc.core] at hcore
      obtain ⟨s', hs', hcore'⟩ := ih t lz n hcore henv
      exact ⟨Svc.rateLimit s' l d, by simp [Svc.readyOneshot, hs', Except.map], by
        simpa [Svc.core] using hcore'⟩

theorem readyOneshot_attempts (env : ConnEnv) (s : Svc) (t : String)
    (lz : Bool) (n : Nat)
    (hcore : s.core = Svc.reconnect t lz ReconnectState.idle) :
    (s.readyOneshot env n).2 = n + 1 := by
  cases henv : env n with
  | ok u =>
      cases u
      obtain ⟨s', hs', _⟩ := readyOneshot_ok env s t lz n hcore henv
      rw [hs']
  | error e =>
      rw [readyOneshot_error env e s t lz n hcore henv]

/-! ### Claims about the transport core -/

/-- Claim C1: the policy layer stack built by `Connection::new` composes
the wrappers in exactly the fixed order origin-injection outermost, then
user-agent tagging (when the capability is enabled), then timeout, then
concurrency limiting (when a limit is configured), then rate limiting
(when a quota is configured), with the `Reconnect` engine innermost; a
request passed to the connection traverses the wrappers in exactly that
order before reaching the engine. -/
theorem claim_C1 (userAgentFeature : Bool) (ep : Endpoint) (is_lazy : Bool)
    (req : Req) :
    ((Connection.new userAgentFeature ep is_lazy).inner.callSeq req).1 =
        [LayerKind.addOrigin] ++
        (if userAgentFeature then [LayerKind.userAgent] else []) ++
        [LayerKind.grpcTimeout] ++
        (match ep.concurrency_limit with
          | some _ => [LayerKind.concurrencyLimit]
          | none => []) ++
        (match ep.rate_limit with
          | some _ => [LayerKind.rateLimit]
          | none => []) ∧
    (Connection.new userAgentFeature ep is_lazy).inner.wrapperTrace =
      ((Connection.new userAgentFeature ep is_lazy).inner.callSeq req).1 ∧
    (Connection.new userAgentFeature ep is_lazy).inner.core =
      Svc.reconnect ep.uri is_lazy ReconnectState.idle := by
  cases hc : ep.concurrency_limit <;> cases hr : ep.rate_limit <;>
    cases userAgentFeature <;>
    simp [Connection.new, Reconnect.new, Svc.callSeq, Svc.core,
      Svc.wrapperTrace, hc, hr]

/-- Claim C2: `Connection::connect` resolves only through the first
readiness check (`ready_oneshot`) of the freshly composed stack: when
the first connect attempt fails, that error is returned and no
connection value is produced; when it succeeds, a connection with the
engine connected is returned; exactly one attempt is consumed either
way, so construction fails fast with no partial façade. -/
theorem claim_C2 (userAgentFeature : Bool) (ep : Endpoint) (env : ConnEnv) :
    (∀ e, env 0 = Except.error e →
      Connection.connect userAgentFeature ep env = (Except.error e, 1)) ∧
    (env 0 = Except.ok () →
      ∃ c, Connection.connect userAgentFeature ep env = (Except.ok c, 1) ∧
        c.inner.core = Svc.reconnect ep.uri false ReconnectState.connected) := by
  constructor
  · intro e he
    unfold Connection.connect
    rw [readyOneshot_error env e _ ep.uri false 0
      (new_core userAgentFeature ep false) he]
  · intro he
    obtain ⟨s', hs', hcore⟩ := readyOneshot_ok env _ ep.uri false 0
      (new_core userAgentFeature ep false) he
    refine ⟨{ inner := s' }, ?_, hcore⟩
    unfold Connection.connect
    rw [hs']

/-- Closed instance of claim C2: with an environment whose first connect
attempt is refused, `Connection::connect` returns exactly that error
after one attempt. -/
theorem claim_C2_witness :
    ((fun _ => Except.error { display := "connection refused" } : ConnEnv) 0 =
      Except.error { display := "connection refused" }) ∧
    Connection.connect true
      { uri := "http://svc:443", origin := none, user_agent := some "tonic/0.12"
        timeout := some 30, concurrency_limit := some 1, rate_limit := none
        init_stream_window_size := none, init_connection_window_size := none
        http2_keep_alive_interval := none, http2_keep_alive_timeout := none
        http2_keep_alive_while_idle := none, http2_adaptive_window := none
        http2_max_header_list_size := none }
      (fun _ => Except.error { display := "connection refused" }) =
      (Except.error { display := "connection refused" }, 1) :=
  ⟨rfl, (claim_C2 true _ _).1 _ rfl⟩

/-- Claim C3: `Connection::lazy` builds the stack with the engine in the
not-yet-attempted (Idle) state — the constructor is a pure function that
is given no connect-attempt environment, so no connect attempt can
happen at construction — and the first readiness check on the resulting
connection performs exactly one connect attempt. -/
theorem claim_C3 (userAgentFeature : Bool) (ep : Endpoint) :
    (Connection.lazy userAgentFeature ep).inner.core =
      Svc.reconnect ep.uri true ReconnectState.idle ∧
    ∀ env : ConnEnv,
      ((Connection.lazy userAgentFeature ep).inner.readyOneshot env 0).2 = 1 := by
  refine ⟨new_core userAgentFeature ep true, ?_⟩
  intro env
  exact readyOneshot_attempts env _ ep.uri true 0 (new_core userAgentFeature ep true)

/-- Claim C4: when the handshake in `MakeSendRequestService::call`
succeeds, the driver task is handed to the executor and the dispatcher
handle is returned; the spawned task's run turns a driver error into a
debug log line and a unit result — a driver failure is never an error of
the call path. -/
theorem claim_C4 (hs : DuplexStream → Except Source (SendRequest × DriverOutcome))
    (io : DuplexStream) (sr : SendRequest) (d : DriverOutcome)
    (h : hs io = Except.ok (sr, d)) :
    makeSendRequestCall (Except.ok io) hs = (Except.ok sr, [d]) ∧
    (∀ e : Source, connTaskRun (Except.error e) =
      ((), ["connection task error: " ++ e.display])) ∧
    connTaskRun (Except.ok ()) = ((), []) := by
  refine ⟨?_, fun e => rfl, rfl⟩
  simp [makeSendRequestCall, h]

/-- Closed instance of claim C4: a concrete successful handshake whose
driver later fails with "stream reset". -/
theorem claim_C4_witness :
    ((fun _ => Except.ok ({ id := 7 }, Except.error { display := "stream reset" }) :
        DuplexStream → Except Source (SendRequest × DriverOutcome)) { id := 0 } =
      Except.ok ({ id := 7 }, Except.error { display := "stream reset" })) ∧
    (makeSendRequestCall (Except.ok { id := 0 })
        (fun _ => Except.ok ({ id := 7 }, Except.error { display := "stream reset" })) =
      (Except.ok { id := 7 }, [Except.error { display := "stream reset" }]) ∧
    (∀ e : Source, connTaskRun (Except.error e) =
      ((), ["connection task error: " ++ e.display])) ∧
    connTaskRun (Except.ok ()) = ((), [])) :=
  ⟨rfl, claim_C4 _ _ _ _ rfl⟩

/-- Claim C5: when the handshake fails, `MakeSendRequestService::call`
propagates the failure (spawning no driver task); at the transport error
boundary `Error::from_source` wraps it into an error of kind `Transport`
whose chained cause is exactly the handshake failure. -/
theorem claim_C5 (hs : DuplexStream → Except Source (SendRequest × DriverOutcome))
    (io : DuplexStream) (e : Source) (h : hs io = Except.error e) :
    makeSendRequestCall (Except.ok io) hs = (Except.error e, []) ∧
    (Error.from_source e).inner.kind = Kind.Transport ∧
    (Error.from_source e).sourceIntrospect = some e := by
  refine ⟨?_, rfl, rfl⟩
  simp [makeSendRequestCall, h]

/-- Closed instance of claim C5: a concrete handshake refusal. -/
theorem claim_C5_witness :
    ((fun _ => Except.error { display := "http2 handshake failed" } :
        DuplexStream → Except Source (SendRequest × DriverOutcome)) { id := 3 } =
      Except.error { display := "http2 handshake failed" }) ∧
    (makeSendRequestCall (Except.ok { id := 3 })
        (fun _ => Except.error { display := "http2 handshake failed" }) =
      (Except.error { display := "http2 handshake failed" }, []) ∧
    (Error.from_source { display := "http2 handshake failed" }).inner.kind =
      Kind.Transport ∧
    (Error.from_source { display := "http2 handshake failed" }).sourceIntrospect =
      some { display := "http2 handshake failed" }) :=
  ⟨rfl, claim_C5 _ _ _ rfl⟩

/-- Counterexample to claim C6 as stated: `Error::new(Kind::Transport)`
is a constructible Error of kind `Transport` whose `source()` is `None`. -/
theorem claim_C6_counterexample :
    (Error.new Kind.Transport).inner.kind = Kind.Transport ∧
    (Error.new Kind.Transport).sourceIntrospect = none :=
  ⟨rfl, rfl⟩

/-- Claim C6 (amended): every Error built by `Error::from_source` — the
only Transport-kind constructor the transport code paths use — has kind
`Transport` and carries its cause: `source()` returns `Some`. -/
theorem claim_C6 (c : Source) :
    (Error.from_source c).inner.kind = Kind.Transport ∧
    (Error.from_source c).sourceIntrospect = some c :=
  ⟨rfl, rfl⟩

/-- Claim C7: for every kind `k` and cause `c`,
`Error::new(k).with(c)` has kind `k`, Display text equal to the fixed
description of `k` (unaffected by the cause), and a `source()` cause
whose display text equals that of `c`. -/
theorem claim_C7 (k : Kind) (c : Source) :
    ((Error.new k).withSource c).inner.kind = k ∧
    ((Error.new k).withSource c).displayText = k.description ∧
    ((Error.new k).withSource c).sourceIntrospect = some c ∧
    (((Error.new k).withSource c).sourceIntrospect).map Source.display =
      some c.display :=
  ⟨rfl, rfl, rfl, rfl⟩

/-- Claim C8: for every Connection, in every state, the load metric is
the constant baseline 0. -/
theorem claim_C8 (c : Connection) : Connection.load c = 0 :=
  rfl

/-- Claim C9: the Debug formatting of a Connection is the identical
constant text for any two Connection values in any states — it exposes
no internal state. -/
theorem claim_C9 (c1 c2 : Connection) :
    Connection.debugFmt c1 = Connection.debugFmt c2 ∧
    Connection.debugFmt c1 = "Connection" :=
  ⟨rfl, rfl⟩

end Tonic

namespace TonicTypes

/-- Claim C10: encoding a `QuotaFailure` into a self-describing `Any`
and decoding it back round-trips — `from_any (into_any qf)` returns `Ok`
of a value equal to `qf` field for field (the `futura_quota_value` field
mapping through the protobuf `future_quota_value` field) — and the
produced `Any` carries exactly `QuotaFailure::TYPE_URL`. -/
theorem claim_C10 (qf : QuotaFailure) :
    QuotaFailure.from_any qf.into_any = Except.ok qf ∧
    qf.into_any.type_url = QuotaFailure.TYPE_URL := by
  constructor
  · unfold QuotaFailure.from_any QuotaFailure.from_any_ref QuotaFailure.into_any
    simp only [quotaFailure_decode_encode]
    rw [quotaFailure_fromPb_toPb]
  · rfl

end TonicTypes
